import Mathlib

/-!
Verification of the auctra-backend marketplace and accounts apps.

The Django models, serializers, url routing and views are shallowly
embedded as executable Lean definitions.  Database rows become
structures, querysets become lists, serializer validation becomes
Except-valued functions, and views become functions from a request to a
response together with the updated database state.  Framework
primitives that live outside the repository (base64 decoding of user
ids, the password-reset token generator, e-mail transport, the e-mail
format validator) are taken as explicit function parameters.
-/

namespace Auctra

/-! ## marketplace/models.py : Escrow -/

/-- Escrow.STATUS_AWAITING from marketplace/models.py. -/
def STATUS_AWAITING : String := "AWAITING_PAYMENT"

/-- Escrow.STATUS_FUNDED from marketplace/models.py. -/
def STATUS_FUNDED : String := "FUNDED"

/-- Escrow.STATUS_SHIPPED from marketplace/models.py. -/
def STATUS_SHIPPED : String := "SHIPPED"

/-- Escrow.STATUS_COMPLETE from marketplace/models.py. -/
def STATUS_COMPLETE : String := "COMPLETE"

/-- Escrow.STATUS_DISPUTE from marketplace/models.py. -/
def STATUS_DISPUTE : String := "DISPUTE"

/-- Escrow.STATUS_REFUNDED from marketplace/models.py. -/
def STATUS_REFUNDED : String := "REFUNDED"

/-- The Escrow model row.  Users and listings are referenced by primary
key; nullable columns are Options; DateTimeFields are abstract ticks. -/
structure Escrow where
  id : Nat
  onchainId : Option String
  contractAddress : String
  chain : String
  listingId : Option Nat
  buyer : Option Nat
  seller : Option Nat
  amount : Int
  rawAmount : Option String
  status : String
  txCreate : Option String
  txFund : Option String
  txRelease : Option String
  txRefund : Option String
  metadata : Option String
  createdAt : Nat
  updatedAt : Nat
deriving DecidableEq

/-- Python truthiness of an optional string argument: None and the
empty string are falsy, every other string is truthy. -/
def pyTruthy : Option String → Bool
  | none => false
  | some s => !(s == "")

/-- Escrow.mark_funded: sets status to FUNDED, tx_fund to the given
hash, raw_amount to the given value when it is truthy, and saves with
auto_now refreshing updated_at.  No precondition is checked. -/
def Escrow.markFunded (e : Escrow) (txHash : String) (rawAmount : Option String)
    (now : Nat) : Escrow :=
  { e with
    status := STATUS_FUNDED
    txFund := some txHash
    rawAmount := if pyTruthy rawAmount then rawAmount else e.rawAmount
    updatedAt := now }

/-- Escrow.mark_released: sets status to COMPLETE and tx_release to the
given hash, unconditionally. -/
def Escrow.markReleased (e : Escrow) (txHash : String) (now : Nat) : Escrow :=
  { e with
    status := STATUS_COMPLETE
    txRelease := some txHash
    updatedAt := now }

/-- Escrow.mark_refunded: sets status to REFUNDED and tx_refund to the
given hash, unconditionally. -/
def Escrow.markRefunded (e : Escrow) (txHash : String) (now : Nat) : Escrow :=
  { e with
    status := STATUS_REFUNDED
    txRefund := some txHash
    updatedAt := now }

/-- Direct status assignment followed by Model.save.  Django performs
no choice validation and no transition check on save, so any string is
stored as the new status value. -/
def Escrow.setStatusRaw (e : Escrow) (s : String) (now : Nat) : Escrow :=
  { e with status := s, updatedAt := now }

/-- A freshly created Escrow row with the model defaults: status
AWAITING_PAYMENT, chain arbitrum_one, every hash column NULL. -/
def freshEscrow (id : Nat) (contractAddress : String) (buyer seller : Option Nat)
    (listingId : Option Nat) (amount : Int) (now : Nat) : Escrow :=
  { id := id
    onchainId := none
    contractAddress := contractAddress
    chain := "arbitrum_one"
    listingId := listingId
    buyer := buyer
    seller := seller
    amount := amount
    rawAmount := none
    status := STATUS_AWAITING
    txCreate := none
    txFund := none
    txRelease := none
    txRefund := none
    metadata := none
    createdAt := now
    updatedAt := now }

/-! ## marketplace/models.py : Dispute, and the two dispute serializers -/

/-- The concrete column names of the Dispute model (marketplace/models.py),
including the implicit primary key. -/
def disputeModelFields : List String :=
  ["id", "escrow", "raised_by", "reason", "evidence", "is_resolved",
   "resolution_note", "resolved_by", "resolved_at", "created_at"]

/-- Serializer fields declared directly on DisputeSerializer
(marketplace/serializers.py): buyer and order. -/
def disputeSerializerDeclared : List String := ["buyer", "order"]

/-- Meta.fields of DisputeSerializer (marketplace/serializers.py). -/
def disputeSerializerMetaFields : List String :=
  ["id", "buyer", "order", "reason", "description", "status",
   "created_at", "resolved_at"]

/-- Serializer fields declared directly on DisputeUpdateSerializer: none. -/
def disputeUpdateSerializerDeclared : List String := []

/-- Meta.fields of DisputeUpdateSerializer (marketplace/serializers.py). -/
def disputeUpdateSerializerMetaFields : List String :=
  ["status", "resolution_notes", "resolved_at"]

/-- DRF ModelSerializer field construction: a Meta.fields entry is
buildable when it is a declared serializer field or a model field or
attribute; otherwise get_fields raises ImproperlyConfigured. -/
def buildableSerializerField (declared modelAttrs : List String) (name : String) : Bool :=
  declared.contains name || modelAttrs.contains name

/-- The Meta.fields entries on which DRF field construction fails for a
given serializer; a nonempty result means every request through the
serializer raises ImproperlyConfigured before any row is touched. -/
def serializerFieldErrors (declared modelAttrs metaFields : List String) : List String :=
  metaFields.filter (fun n => !(buildableSerializerField declared modelAttrs n))

/-! ## marketplace/urls.py -/

/-- The marketplace view classes (marketplace/views.py). -/
inductive MarketplaceView where
  | listingImageListCreate
  | listingImageDetail
  | listingListCreate
  | listingDetail
  | orderListCreate
  | orderDetail
  | escrowListCreate
  | escrowDetail
  | disputeCreate
  | disputeUpdate
  | escrowEventList
deriving DecidableEq

/-- urlpatterns of marketplace/urls.py, in source order.  Note that the
entry named dispute-detail-update binds DisputeCreateView, and that the
entry named escrow-event-detail binds EscrowDetailView. -/
def marketplaceUrlpatterns : List (String × MarketplaceView) :=
  [("listing-images/", .listingImageListCreate),
   ("listing-images/<int:pk>/", .listingImageDetail),
   ("listings/", .listingListCreate),
   ("listings/<int:pk>/", .listingDetail),
   ("orders/", .orderListCreate),
   ("orders/<int:pk>/", .orderDetail),
   ("escrows/", .escrowListCreate),
   ("escrows/<int:pk>/", .escrowDetail),
   ("dispute/", .disputeCreate),
   ("disputes/<int:pk>/", .disputeCreate),
   ("escrow-events/", .escrowEventList),
   ("escrow-events/<int:pk>/", .escrowDetail)]

/-- Resolve a path pattern to the view bound to it. -/
def lookupUrl (pats : List (String × MarketplaceView)) (p : String) :
    Option MarketplaceView :=
  (pats.find? (fun q => q.1 == p)).map (fun q => q.2)

/-- The HTTP methods each view class handles, from its DRF generic base
class: ListCreateAPIView handles GET and POST, RetrieveUpdateDestroyAPIView
handles GET, PUT, PATCH and DELETE, RetrieveAPIView and ListAPIView handle
GET, CreateAPIView handles POST, UpdateAPIView handles PUT and PATCH.
Any other method receives 405 Method Not Allowed from dispatch. -/
def viewHandlers : MarketplaceView → List String
  | .listingImageListCreate => ["GET", "POST"]
  | .listingImageDetail => ["GET", "PUT", "PATCH", "DELETE"]
  | .listingListCreate => ["GET", "POST"]
  | .listingDetail => ["GET", "PUT", "PATCH", "DELETE"]
  | .orderListCreate => ["GET", "POST"]
  | .orderDetail => ["GET", "PUT", "PATCH", "DELETE"]
  | .escrowListCreate => ["GET", "POST"]
  | .escrowDetail => ["GET"]
  | .disputeCreate => ["POST"]
  | .disputeUpdate => ["PUT", "PATCH"]
  | .escrowEventList => ["GET"]

/-- Permission class of each marketplace view: true when the view
requires an admin (IsAdminUser), false when plain authentication or
read access suffices. -/
def viewRequiresAdmin : MarketplaceView → Bool
  | .disputeUpdate => true
  | _ => false

/-! ## marketplace/models.py : Listing and Order, and the order surface -/

/-- A Listing row (marketplace/models.py). -/
structure Listing where
  id : Nat
  seller : Nat
  title : String
  ldescription : String
  category : Option String
  price : Int
  tokenAddress : Option String
  quantity : Nat
  isActive : Bool
  isSold : Bool
  createdAt : Nat
  updatedAt : Nat
deriving DecidableEq

/-- Order.STATUS_CHOICES keys (marketplace/models.py). -/
def ORDER_STATUS_CHOICES : List String :=
  ["pending", "paid", "shipped", "completed", "cancelled"]

/-- An Order row (marketplace/models.py).  The status column defaults
to pending; escrow is a nullable one-to-one reference. -/
structure Order where
  id : Nat
  buyer : Nat
  listingId : Nat
  shippingAddress : String
  phoneNumber : String
  quantity : Nat
  status : String
  escrowId : Option Nat
  createdAt : Nat
  updatedAt : Nat
deriving DecidableEq

/-- An EscrowEvent row (marketplace/models.py). -/
structure EscrowEvent where
  id : Nat
  escrowId : Nat
  eventType : String
  txHash : Option String
  blockNumber : Option Nat
  payload : Option String
  eventDescription : Option String
  createdAt : Nat
deriving DecidableEq

/-- The relational state the marketplace views query. -/
structure DB where
  listings : List Listing
  orders : List Order
  escrows : List Escrow
  events : List EscrowEvent
deriving DecidableEq

/-- Listing.objects lookup by primary key. -/
def DB.findListing (db : DB) (pk : Nat) : Option Listing :=
  db.listings.find? (fun l => l.id == pk)

/-- Escrow.objects lookup by primary key. -/
def DB.findEscrow (db : DB) (pk : Nat) : Option Escrow :=
  db.escrows.find? (fun e => e.id == pk)

/-- The filter Q(buyer=user) | Q(listing__seller=user) used by
OrderListCreateView.get_queryset: the requesting user is the buyer of
the order or the seller of the order listing. -/
def orderInvolvesUser (db : DB) (user : Nat) (o : Order) : Bool :=
  o.buyer == user ||
    (match db.findListing o.listingId with
     | some l => l.seller == user
     | none => false)

/-- OrderListCreateView.get_queryset: only orders where the requesting
user is buyer or the seller of the listing. -/
def orderListQueryset (db : DB) (user : Nat) : List Order :=
  db.orders.filter (orderInvolvesUser db user)

/-- OrderDetailView.queryset: Order.objects.all(), with no per-user
restriction. -/
def orderDetailQueryset (db : DB) (_user : Nat) : List Order :=
  db.orders

/-- get_object of OrderDetailView: resolve the pk inside the detail
queryset for the requesting user. -/
def orderDetailGetObject (db : DB) (user : Nat) (pk : Nat) : Option Order :=
  (orderDetailQueryset db user).find? (fun o => o.id == pk)

/-- The writable input of OrderSerializer: listing_id (required
PrimaryKeyRelatedField) and status (ChoiceField generated from the
model choices, not required because the model column has a default). -/
structure OrderInput where
  listingId : Option Nat
  status : Option String
deriving DecidableEq

/-- DRF ChoiceField validation for the order status: an absent value
falls back to the model default pending, a present value must be one of
the model choices. -/
def validateOrderStatus : Option String → Except String String
  | none => .ok "pending"
  | some s =>
    if ORDER_STATUS_CHOICES.contains s then .ok s else .error "invalid_choice"

/-- POST /marketplace/orders/ : serializer validation followed by
create, with buyer forced to the requesting user.  A missing or unknown
listing_id and an out-of-choices status are 400 validation failures. -/
def orderCreate (db : DB) (user : Nat) (inp : OrderInput) (newId now : Nat) :
    Except String Order :=
  match inp.listingId with
  | none => .error "listing_id_required"
  | some lid =>
    match db.findListing lid with
    | none => .error "listing_does_not_exist"
    | some _ =>
      match validateOrderStatus inp.status with
      | .error e => .error e
      | .ok st =>
        .ok { id := newId
              buyer := user
              listingId := lid
              shippingAddress := ""
              phoneNumber := ""
              quantity := 1
              status := st
              escrowId := none
              createdAt := now
              updatedAt := now }

/-- PATCH /marketplace/orders/(pk)/ : ModelSerializer.update writes the
validated fields onto the instance, leaving absent fields unchanged.
A present status outside the model choices is a 400 validation failure. -/
def orderUpdate (db : DB) (o : Order) (inp : OrderInput) (now : Nat) :
    Except String Order :=
  match inp.listingId with
  | some lid =>
    match db.findListing lid with
    | none => .error "listing_does_not_exist"
    | some _ =>
      match inp.status with
      | none => .ok { o with listingId := lid, updatedAt := now }
      | some s =>
        if ORDER_STATUS_CHOICES.contains s then
          .ok { o with listingId := lid, status := s, updatedAt := now }
        else .error "invalid_choice"
  | none =>
    match inp.status with
    | none => .ok { o with updatedAt := now }
    | some s =>
      if ORDER_STATUS_CHOICES.contains s then
        .ok { o with status := s, updatedAt := now }
      else .error "invalid_choice"

/-! ## marketplace/views.py : EscrowEventListView -/

/-- Descending created_at order used by order_by("-created_at"). -/
def eventLaterOrEq (a b : EscrowEvent) : Bool :=
  decide (b.createdAt ≤ a.createdAt)

/-- Python str.lower, character by character. -/
def pyLower (s : String) : String := String.mk (s.data.map Char.toLower)

/-- The filter Q(escrow__buyer=user) | Q(escrow__seller=user) applied
when the user_only query parameter is a truthy string equal to true
after lowercasing. -/
def eventInvolvesUser (db : DB) (user : Nat) (ev : EscrowEvent) : Bool :=
  match db.findEscrow ev.escrowId with
  | some esc => esc.buyer == some user || esc.seller == some user
  | none => false

/-- The queryset before ordering: the full event table, restricted to
the requesting user when the user_only query parameter is truthy and
equals true after lowercasing. -/
def escrowEventBase (db : DB) (user : Nat) (userOnly : Option String) :
    List EscrowEvent :=
  match userOnly with
  | some v =>
    if pyTruthy (some v) && pyLower v == "true" then
      db.events.filter (eventInvolvesUser db user)
    else db.events
  | none => db.events

/-- EscrowEventListView.get_queryset: the optionally restricted event
table, ordered by created_at descending. -/
def escrowEventQueryset (db : DB) (user : Nat) (userOnly : Option String) :
    List EscrowEvent :=
  (escrowEventBase db user userOnly).mergeSort eventLaterOrEq

/-- An HTTP response of the event listing surface: a status code and,
for 200, the serialized queryset. -/
inductive EventListResponse where
  | ok (events : List EscrowEvent)
  | methodNotAllowed
deriving DecidableEq

/-- Dispatch for /marketplace/escrow-events/ : the view is a ListAPIView,
so only GET has a handler and every other method gets 405. -/
def escrowEventListView (db : DB) (user : Nat) (userOnly : Option String)
    (method : String) : EventListResponse :=
  if method == "GET" then .ok (escrowEventQueryset db user userOnly)
  else .methodNotAllowed

/-! ## accounts/models.py and accounts/views.py -/

/-- A user row of the accounts app: primary key, unique e-mail and the
stored password credential. -/
structure UserRec where
  id : Nat
  email : String
  password : String
deriving DecidableEq

/-- User.objects.get(pk=uid). -/
def findUser (users : List UserRec) (uid : Nat) : Option UserRec :=
  users.find? (fun u => u.id == uid)

/-- User.objects.get(email=email); the e-mail column is unique. -/
def findUserByEmail (users : List UserRec) (email : String) : Option UserRec :=
  users.find? (fun u => u.email == email)

/-- The constant success body of PasswordResetRequestView. -/
def passwordResetRequestMsg : String :=
  "If an account with this email exists, a password reset link has been sent."

/-- POST /accounts/password-reset/ (PasswordResetRequestView.post).
The e-mail format validator of the serializer EmailField, the token
generator and the uid encoder are framework primitives passed as
parameters.  Returns the HTTP response paired with the outbox of sent
mails (recipient and reset link).  A missing or invalid e-mail is a 400
serializer failure; otherwise the view answers 200 with the same
constant body whether or not the account exists, and only sends a mail
in the existing case. -/
def passwordResetRequest (validEmail : String → Bool)
    (makeToken : Nat → String) (uidEncode : Nat → String)
    (frontendUrl : String) (users : List UserRec) (email : Option String) :
    (Nat × String) × List (String × String) :=
  match email with
  | none => ((400, "validation_error"), [])
  | some e =>
    if validEmail e then
      match findUserByEmail users e with
      | some u =>
        ((200, passwordResetRequestMsg),
         [(u.email,
           frontendUrl ++ "/reset-password/" ++ uidEncode u.id ++ "/" ++ makeToken u.id)])
      | none => ((200, passwordResetRequestMsg), [])
    else ((400, "validation_error"), [])

/-- The body of a POST /accounts/password-reset/confirm/ request; every
field may be absent from request.data. -/
structure ResetConfirmRequest where
  uidb64 : Option String
  token : Option String
  password : Option String
  password2 : Option String
deriving DecidableEq

/-- PasswordResetConfirmSerializer validation: token, password and
password2 are required CharFields (blank token rejected, passwords at
least 6 characters) and the two passwords must match. -/
def resetConfirmSerializerValid (req : ResetConfirmRequest) : Bool :=
  match req.token, req.password, req.password2 with
  | some t, some p, some p2 =>
    !(t == "") && 6 ≤ p.length && 6 ≤ p2.length && p == p2
  | _, _, _ => false

/-- The user targeted by the request: force_str(urlsafe_base64_decode(uidb64))
followed by User.objects.get(pk=uid), with every decoding or lookup
failure collapsing to none (the view catches TypeError, ValueError,
OverflowError and DoesNotExist).  The base64 uid decoder is a framework
primitive passed as a parameter. -/
def resolveResetUser (decodeUid : String → Option Nat) (users : List UserRec)
    (req : ResetConfirmRequest) : Option UserRec :=
  match req.uidb64 with
  | none => none
  | some u64 =>
    match decodeUid u64 with
    | none => none
    | some uid => findUser users uid

/-- POST /accounts/password-reset/confirm/ (PasswordResetConfirmView.post).
Serializer failure, an unresolvable uid and a failed token check each
answer 400 and leave the user table untouched; only when everything
passes is the resolved user given the submitted password, with a 200. -/
def passwordResetConfirm (decodeUid : String → Option Nat)
    (checkToken : Nat → String → Bool) (users : List UserRec)
    (req : ResetConfirmRequest) : Nat × List UserRec :=
  if resetConfirmSerializerValid req then
    match resolveResetUser decodeUid users req with
    | none => (400, users)
    | some u =>
      if checkToken u.id (req.token.getD "") then
        (200, users.map (fun x =>
          if x.id == u.id then { x with password := req.password.getD "" } else x))
      else (400, users)
  else (400, users)

/-! ## Theorems -/

/-- C1: the dispute-create operation cannot create a Dispute at all.
DisputeSerializer lists the Meta.fields entries description and status,
which are neither declared serializer fields nor fields of the Dispute
model, so DRF raises ImproperlyConfigured on every request; moreover
the serializer has no escrow field although escrow is a required model
column, and the buyer and order names it does use are not Dispute
columns.  The claimed 201-with-created-dispute behaviour is therefore
unreachable. -/
theorem dispute_create_serializer_broken :
    serializerFieldErrors disputeSerializerDeclared disputeModelFields
        disputeSerializerMetaFields = ["description", "status"] ∧
    disputeSerializerMetaFields.contains "escrow" = false ∧
    disputeSerializerDeclared.contains "escrow" = false ∧
    disputeModelFields.contains "escrow" = true ∧
    disputeModelFields.contains "buyer" = false ∧
    disputeModelFields.contains "order" = false ∧
    disputeModelFields.contains "raised_by" = true ∧
    lookupUrl marketplaceUrlpatterns "dispute/" = some MarketplaceView.disputeCreate := by
  decide

/-- C2: the dispute detail route is not an update surface.  The
urlpattern disputes/(int:pk)/ binds DisputeCreateView, whose only
handler is POST, so PUT and PATCH get 405; DisputeUpdateView is bound
to no urlpattern at all; and even as written its serializer lists the
Meta.fields entries status and resolution_notes, which are not Dispute
model fields, so it would raise ImproperlyConfigured if it were ever
reached.  Only the admin-permission half of the claim matches the code
of the unreachable view. -/
theorem dispute_update_route_broken :
    lookupUrl marketplaceUrlpatterns "disputes/<int:pk>/" =
      some MarketplaceView.disputeCreate ∧
    (marketplaceUrlpatterns.map Prod.snd).contains MarketplaceView.disputeUpdate
      = false ∧
    viewHandlers MarketplaceView.disputeCreate = ["POST"] ∧
    (viewHandlers MarketplaceView.disputeCreate).contains "PUT" = false ∧
    (viewHandlers MarketplaceView.disputeCreate).contains "PATCH" = false ∧
    viewRequiresAdmin MarketplaceView.disputeCreate = false ∧
    viewRequiresAdmin MarketplaceView.disputeUpdate = true ∧
    serializerFieldErrors disputeUpdateSerializerDeclared disputeModelFields
        disputeUpdateSerializerMetaFields = ["status", "resolution_notes"] := by
  decide

/-- C3: mark_funded, mark_released and mark_refunded set the status and
the corresponding transaction-hash column for every escrow, every hash
and every prior state, with no precondition and no verification;
mark_funded additionally stores raw_amount exactly when the argument is
truthy (non-empty). -/
theorem escrow_lifecycle_setters (e : Escrow) (txh : String) (r : Option String)
    (now : Nat) :
    (e.markFunded txh r now).status = STATUS_FUNDED ∧
    (e.markFunded txh r now).txFund = some txh ∧
    (e.markFunded txh r now).rawAmount = (if pyTruthy r then r else e.rawAmount) ∧
    (e.markReleased txh now).status = STATUS_COMPLETE ∧
    (e.markReleased txh now).txRelease = some txh ∧
    (e.markRefunded txh now).status = STATUS_REFUNDED ∧
    (e.markRefunded txh now).txRefund = some txh :=
  ⟨rfl, rfl, rfl, rfl, rfl, rfl, rfl⟩

/-- C4: no status-transition invariant exists.  Every lifecycle setter
succeeds from every prior status and direct assignment stores any
status string; a fresh escrow that was never FUNDED reaches COMPLETE
through mark_released with tx_fund still NULL, and FUNDED is reached
again after COMPLETE or REFUNDED. -/
theorem escrow_no_transition_invariant (e : Escrow) (s txh a : String)
    (r : Option String) (b sl li : Option Nat) (amt : Int) (i t n m : Nat) :
    ((e.setStatusRaw s n).markFunded txh r m).status = STATUS_FUNDED ∧
    ((e.setStatusRaw s n).markReleased txh m).status = STATUS_COMPLETE ∧
    ((e.setStatusRaw s n).markRefunded txh m).status = STATUS_REFUNDED ∧
    (e.setStatusRaw s n).status = s ∧
    (freshEscrow i a b sl li amt t).status = STATUS_AWAITING ∧
    (freshEscrow i a b sl li amt t).txFund = none ∧
    ((freshEscrow i a b sl li amt t).markReleased txh n).status = STATUS_COMPLETE ∧
    ((freshEscrow i a b sl li amt t).markReleased txh n).txFund = none ∧
    ((e.markReleased txh n).markFunded txh r m).status = STATUS_FUNDED ∧
    ((e.markRefunded txh n).markFunded txh r m).status = STATUS_FUNDED :=
  ⟨rfl, rfl, rfl, rfl, rfl, rfl, rfl, rfl, rfl, rfl⟩

/-- C7: each lifecycle setter only touches its own columns.  All other
columns of the row keep their prior values: identifiers, parties,
amount, metadata, created_at and the transaction hashes of the other
operations are unchanged. -/
theorem escrow_setters_frame (e : Escrow) (txh : String) (r : Option String)
    (now : Nat) :
    ((e.markFunded txh r now).id = e.id ∧
     (e.markFunded txh r now).onchainId = e.onchainId ∧
     (e.markFunded txh r now).contractAddress = e.contractAddress ∧
     (e.markFunded txh r now).chain = e.chain ∧
     (e.markFunded txh r now).listingId = e.listingId ∧
     (e.markFunded txh r now).buyer = e.buyer ∧
     (e.markFunded txh r now).seller = e.seller ∧
     (e.markFunded txh r now).amount = e.amount ∧
     (e.markFunded txh r now).metadata = e.metadata ∧
     (e.markFunded txh r now).createdAt = e.createdAt ∧
     (e.markFunded txh r now).txCreate = e.txCreate ∧
     (e.markFunded txh r now).txRelease = e.txRelease ∧
     (e.markFunded txh r now).txRefund = e.txRefund) ∧
    ((e.markReleased txh now).id = e.id ∧
     (e.markReleased txh now).onchainId = e.onchainId ∧
     (e.markReleased txh now).contractAddress = e.contractAddress ∧
     (e.markReleased txh now).chain = e.chain ∧
     (e.markReleased txh now).listingId = e.listingId ∧
     (e.markReleased txh now).buyer = e.buyer ∧
     (e.markReleased txh now).seller = e.seller ∧
     (e.markReleased txh now).amount = e.amount ∧
     (e.markReleased txh now).rawAmount = e.rawAmount ∧
     (e.markReleased txh now).metadata = e.metadata ∧
     (e.markReleased txh now).createdAt = e.createdAt ∧
     (e.markReleased txh now).txCreate = e.txCreate ∧
     (e.markReleased txh now).txFund = e.txFund ∧
     (e.markReleased txh now).txRefund = e.txRefund) ∧
    ((e.markRefunded txh now).id = e.id ∧
     (e.markRefunded txh now).onchainId = e.onchainId ∧
     (e.markRefunded txh now).contractAddress = e.contractAddress ∧
     (e.markRefunded txh now).chain = e.chain ∧
     (e.markRefunded txh now).listingId = e.listingId ∧
     (e.markRefunded txh now).buyer = e.buyer ∧
     (e.markRefunded txh now).seller = e.seller ∧
     (e.markRefunded txh now).amount = e.amount ∧
     (e.markRefunded txh now).rawAmount = e.rawAmount ∧
     (e.markRefunded txh now).metadata = e.metadata ∧
     (e.markRefunded txh now).createdAt = e.createdAt ∧
     (e.markRefunded txh now).txCreate = e.txCreate ∧
     (e.markRefunded txh now).txFund = e.txFund ∧
     (e.markRefunded txh now).txRelease = e.txRelease) := by
  refine ⟨⟨rfl, rfl, rfl, rfl, rfl, rfl, rfl, rfl, rfl, rfl, rfl, rfl, rfl⟩,
    ⟨rfl, rfl, rfl, rfl, rfl, rfl, rfl, rfl, rfl, rfl, rfl, rfl, rfl, rfl⟩,
    ⟨rfl, rfl, rfl, rfl, rfl, rfl, rfl, rfl, rfl, rfl, rfl, rfl, rfl, rfl⟩⟩

/-- C5: order detail access is not restricted to the participants.
get_object of OrderDetailView resolves the same row for every
requesting user because its queryset is Order.objects.all(), while the
order list queryset contains exactly the orders whose buyer is the
requesting user or whose listing is sold by the requesting user. -/
theorem order_detail_access_not_restricted (db : DB) (u1 u2 pk : Nat) :
    orderDetailGetObject db u1 pk = orderDetailGetObject db u2 pk ∧
    orderDetailQueryset db u1 = db.orders ∧
    (∀ o : Order, o ∈ orderListQueryset db u1 ↔
      o ∈ db.orders ∧ orderInvolvesUser db u1 o = true) ∧
    (∀ o : Order, orderInvolvesUser db u1 o = true ↔
      (o.buyer = u1 ∨ ∃ l, db.findListing o.listingId = some l ∧ l.seller = u1)) := by
  refine ⟨rfl, rfl, ?_, ?_⟩
  · intro o
    exact List.mem_filter
  · intro o
    cases hl : db.findListing o.listingId with
    | none => simp [orderInvolvesUser, hl]
    | some l => simp [orderInvolvesUser, hl]

/-- C9: the escrow-event surface is list-only and every non-GET method
receives 405; the returned queryset is ordered by created_at descending;
and with user_only=true it contains exactly the events whose escrow has
the requesting user as buyer or as seller. -/
theorem escrow_event_list_spec (db : DB) (u : Nat) (q : Option String) :
    (∀ ev : EscrowEvent, ev ∈ escrowEventQueryset db u (some "true") ↔
      ev ∈ db.events ∧ eventInvolvesUser db u ev = true) ∧
    (∀ ev : EscrowEvent, eventInvolvesUser db u ev = true ↔
      ∃ esc, db.findEscrow ev.escrowId = some esc ∧
        (esc.buyer = some u ∨ esc.seller = some u)) ∧
    (escrowEventQueryset db u q).Pairwise
      (fun a b => b.createdAt ≤ a.createdAt) ∧
    escrowEventListView db u q "GET" = .ok (escrowEventQueryset db u q) ∧
    escrowEventListView db u q "POST" = .methodNotAllowed ∧
    escrowEventListView db u q "PUT" = .methodNotAllowed ∧
    escrowEventListView db u q "PATCH" = .methodNotAllowed ∧
    escrowEventListView db u q "DELETE" = .methodNotAllowed := by
  have hcond : (pyTruthy (some "true") && (pyLower "true" == "true")) = true := by
    decide
  refine ⟨?_, ?_, ?_, ?_, ?_, ?_, ?_, ?_⟩
  · intro ev
    rw [escrowEventQueryset, List.mem_mergeSort]
    show ev ∈ (if pyTruthy (some "true") && (pyLower "true" == "true") then
        db.events.filter (eventInvolvesUser db u) else db.events) ↔ _
    rw [if_pos hcond]
    exact List.mem_filter
  · intro ev
    cases he : db.findEscrow ev.escrowId with
    | none => simp [eventInvolvesUser, he]
    | some esc => simp [eventInvolvesUser, he]
  · have hs := @List.sorted_mergeSort EscrowEvent eventLaterOrEq
      (fun a b c hab hbc => by
        simp only [eventLaterOrEq, decide_eq_true_eq] at hab hbc ⊢
        exact le_trans hbc hab)
      (fun a b => by
        simp only [eventLaterOrEq, Bool.or_eq_true, decide_eq_true_eq]
        exact Nat.le_total b.createdAt a.createdAt)
      (escrowEventBase db u q)
    exact hs.imp (fun h => by
      simpa only [eventLaterOrEq, decide_eq_true_eq] using h)
  · simp [escrowEventListView]
  · simp [escrowEventListView]
  · simp [escrowEventListView]
  · simp [escrowEventListView]
  · simp [escrowEventListView]

/-- C10: the password-reset request response is independent of whether
the submitted e-mail belongs to an account.  Two runs on user tables
that may differ arbitrarily produce the same HTTP response for the same
request, and for any e-mail value the response is the constant 200
message when the serializer accepts it and a 400 validation failure
otherwise. -/
theorem password_reset_request_uniform (validEmail : String → Bool)
    (makeToken : Nat → String) (uidEncode : Nat → String) (frontendUrl : String)
    (users1 users2 : List UserRec) (email : Option String) :
    (passwordResetRequest validEmail makeToken uidEncode frontendUrl users1 email).1 =
      (passwordResetRequest validEmail makeToken uidEncode frontendUrl users2 email).1 ∧
    (∀ e : String,
      (passwordResetRequest validEmail makeToken uidEncode frontendUrl users1 (some e)).1 =
        if validEmail e then (200, passwordResetRequestMsg)
        else (400, "validation_error")) := by
  constructor
  · cases email with
    | none => rfl
    | some e =>
      cases hv : validEmail e with
      | false => simp [passwordResetRequest, hv]
      | true =>
        simp only [passwordResetRequest, hv, if_true]
        cases findUserByEmail users1 e <;> cases findUserByEmail users2 e <;> rfl
  · intro e
    cases hv : validEmail e with
    | false => simp [passwordResetRequest, hv]
    | true =>
      simp only [passwordResetRequest, hv, if_true]
      cases findUserByEmail users1 e <;> rfl

/-- C6: password-reset confirmation refuses with 400 and leaves every
stored password unchanged when the passwords differ, when the uid does
not resolve to an existing user, or when the token check fails; a 200
answer happens only when the serializer accepted the input and the
token verified, and then exactly the resolved user gets the submitted
password. -/
theorem password_reset_confirm_checks (decodeUid : String → Option Nat)
    (checkToken : Nat → String → Bool) (users : List UserRec)
    (req : ResetConfirmRequest) :
    (req.password ≠ req.password2 →
      passwordResetConfirm decodeUid checkToken users req = (400, users)) ∧
    (resolveResetUser decodeUid users req = none →
      passwordResetConfirm decodeUid checkToken users req = (400, users)) ∧
    (∀ u, resolveResetUser decodeUid users req = some u →
      checkToken u.id (req.token.getD "") = false →
      passwordResetConfirm decodeUid checkToken users req = (400, users)) ∧
    ((passwordResetConfirm decodeUid checkToken users req).1 ≠ 200 →
      passwordResetConfirm decodeUid checkToken users req = (400, users)) ∧
    ((passwordResetConfirm decodeUid checkToken users req).1 = 200 →
      resetConfirmSerializerValid req = true ∧
      ∃ u, resolveResetUser decodeUid users req = some u ∧
        checkToken u.id (req.token.getD "") = true ∧
        (passwordResetConfirm decodeUid checkToken users req).2 =
          users.map (fun x => if x.id == u.id then
            { x with password := req.password.getD "" } else x)) ∧
    (∀ u, resetConfirmSerializerValid req = true →
      resolveResetUser decodeUid users req = some u →
      checkToken u.id (req.token.getD "") = true →
      passwordResetConfirm decodeUid checkToken users req =
        (200, users.map (fun x => if x.id == u.id then
          { x with password := req.password.getD "" } else x))) := by
  refine ⟨?_, ?_, ?_, ?_, ?_, ?_⟩
  · intro hne
    have hv : resetConfirmSerializerValid req = false := by
      unfold resetConfirmSerializerValid
      cases ht : req.token <;> cases hp : req.password <;>
        cases hp2 : req.password2 <;> simp_all
    simp [passwordResetConfirm, hv]
  · intro hr
    cases hv : resetConfirmSerializerValid req with
    | false => simp [passwordResetConfirm, hv]
    | true => simp [passwordResetConfirm, hv, hr]
  · intro u hr hc
    cases hv : resetConfirmSerializerValid req with
    | false => simp [passwordResetConfirm, hv]
    | true => simp [passwordResetConfirm, hv, hr, hc]
  · intro hne
    cases hv : resetConfirmSerializerValid req with
    | false => simp [passwordResetConfirm, hv]
    | true =>
      cases hr : resolveResetUser decodeUid users req with
      | none => simp [passwordResetConfirm, hv, hr]
      | some u =>
        cases hc : checkToken u.id (req.token.getD "") with
        | false => simp [passwordResetConfirm, hv, hr, hc]
        | true => exact absurd (by simp [passwordResetConfirm, hv, hr, hc]) hne
  · intro h200
    cases hv : resetConfirmSerializerValid req with
    | false => simp [passwordResetConfirm, hv] at h200
    | true =>
      cases hr : resolveResetUser decodeUid users req with
      | none => simp [passwordResetConfirm, hv, hr] at h200
      | some u =>
        cases hc : checkToken u.id (req.token.getD "") with
        | false => simp [passwordResetConfirm, hv, hr, hc] at h200
        | true =>
          exact ⟨rfl, u, rfl, hc, by simp [passwordResetConfirm, hv, hr, hc]⟩
  · intro u hv hr hc
    simp [passwordResetConfirm, hv, hr, hc]

/-- A concrete user table with one account, for witnesses. -/
def sampleUsers : List UserRec := [{ id := 7, email := "jo@example.com", password := "oldpass" }]

/-- A concrete uid decoder for witnesses: only the string good decodes,
to user id 7. -/
def sampleDecode : String → Option Nat := fun s => if s == "good" then some 7 else none

/-- A concrete token checker for witnesses: only the token tok verifies. -/
def sampleCheck : Nat → String → Bool := fun _ t => t == "tok"

/-- Witness for C6: mismatched passwords, an undecodable uid and a
wrong token each produce 400 with the table unchanged, on concrete
inputs. -/
theorem password_reset_confirm_checks_witness :
    passwordResetConfirm sampleDecode sampleCheck sampleUsers
      { uidb64 := some "good", token := some "tok", password := some "secret1",
        password2 := some "secret2" } = (400, sampleUsers) ∧
    passwordResetConfirm sampleDecode sampleCheck sampleUsers
      { uidb64 := some "bad", token := some "tok", password := some "secret1",
        password2 := some "secret1" } = (400, sampleUsers) ∧
    passwordResetConfirm sampleDecode sampleCheck sampleUsers
      { uidb64 := some "good", token := some "wrong", password := some "secret1",
        password2 := some "secret1" } = (400, sampleUsers) ∧
    resetConfirmSerializerValid
      { uidb64 := some "good", token := some "tok", password := some "secret1",
        password2 := some "secret1" } = true ∧
    passwordResetConfirm sampleDecode sampleCheck sampleUsers
      { uidb64 := some "good", token := some "tok", password := some "secret1",
        password2 := some "secret1" } =
      (200, [{ id := 7, email := "jo@example.com", password := "secret1" }]) :=
  ⟨(password_reset_confirm_checks sampleDecode sampleCheck sampleUsers _).1
      (by decide),
   (password_reset_confirm_checks sampleDecode sampleCheck sampleUsers _).2.1
      (by decide),
   (password_reset_confirm_checks sampleDecode sampleCheck sampleUsers _).2.2.1
      { id := 7, email := "jo@example.com", password := "oldpass" } (by decide) (by decide),
   ((password_reset_confirm_checks sampleDecode sampleCheck sampleUsers
      { uidb64 := some "good", token := some "tok", password := some "secret1",
        password2 := some "secret1" }).2.2.2.2.1 (by decide)).1,
   (password_reset_confirm_checks sampleDecode sampleCheck sampleUsers
      { uidb64 := some "good", token := some "tok", password := some "secret1",
        password2 := some "secret1" }).2.2.2.2.2
      { id := 7, email := "jo@example.com", password := "oldpass" }
      (by decide) (by decide) (by decide)⟩

/-- Helper: evaluation of the status ChoiceField on an absent value. -/
theorem validateOrderStatus_none : validateOrderStatus none = Except.ok "pending" := rfl

/-- Helper: evaluation of the status ChoiceField on a present value. -/
theorem validateOrderStatus_some (s : String) :
    validateOrderStatus (some s) =
      if ORDER_STATUS_CHOICES.contains s then Except.ok s
      else Except.error "invalid_choice" := rfl

/-- Helper: an order accepted by create carries exactly the status that
the ChoiceField validated. -/
theorem orderCreate_ok_status (db : DB) (u : Nat) (inp : OrderInput)
    (newId now : Nat) (o : Order)
    (h : orderCreate db u inp newId now = Except.ok o) :
    validateOrderStatus inp.status = Except.ok o.status := by
  unfold orderCreate at h
  split at h
  · exact Except.noConfusion h
  · split at h
    · exact Except.noConfusion h
    · split at h
      · exact Except.noConfusion h
      · rename_i st hv
        injection h with h2
        subst h2
        exact hv

/-- Helper: an order accepted by update keeps its status when none was
submitted and otherwise carries the submitted, choice-checked value. -/
theorem orderUpdate_ok_status (db : DB) (o0 : Order) (inp : OrderInput)
    (now : Nat) (o : Order) (h : orderUpdate db o0 inp now = Except.ok o) :
    (inp.status = none ∧ o.status = o0.status) ∨
    (inp.status = some o.status ∧ ORDER_STATUS_CHOICES.contains o.status = true) := by
  unfold orderUpdate at h
  split at h
  · split at h
    · exact Except.noConfusion h
    · split at h
      · rename_i hs
        injection h with h2
        subst h2
        exact Or.inl ⟨hs, rfl⟩
      · rename_i s hs
        split at h
        · rename_i hc
          injection h with h2
          subst h2
          exact Or.inr ⟨hs, hc⟩
        · exact Except.noConfusion h
  · split at h
    · rename_i hs
      injection h with h2
      subst h2
      exact Or.inl ⟨hs, rfl⟩
    · rename_i s hs
      split at h
      · rename_i hc
        injection h with h2
        subst h2
        exact Or.inr ⟨hs, hc⟩
      · exact Except.noConfusion h

/-- C8: every order stored through the serializer has one of the five
model statuses.  A create without a status stores pending, a create or
update with a status outside the choices is rejected, and an accepted
update keeps the status set within the choices. -/
theorem order_status_invariant (db : DB) (u : Nat) (inp : OrderInput)
    (o0 : Order) (newId now : Nat) :
    (∀ o, orderCreate db u inp newId now = Except.ok o →
      ORDER_STATUS_CHOICES.contains o.status = true) ∧
    (inp.status = none → ∀ o, orderCreate db u inp newId now = Except.ok o →
      o.status = "pending") ∧
    (∀ s, inp.status = some s → ORDER_STATUS_CHOICES.contains s = false →
      ∀ o, orderCreate db u inp newId now ≠ Except.ok o) ∧
    (ORDER_STATUS_CHOICES.contains o0.status = true →
      ∀ o, orderUpdate db o0 inp now = Except.ok o →
        ORDER_STATUS_CHOICES.contains o.status = true) ∧
    (∀ s, inp.status = some s → ORDER_STATUS_CHOICES.contains s = false →
      ∀ o, orderUpdate db o0 inp now ≠ Except.ok o) := by
  refine ⟨?_, ?_, ?_, ?_, ?_⟩
  · intro o h
    have hv := orderCreate_ok_status db u inp newId now o h
    cases hs : inp.status with
    | none =>
      rw [hs, validateOrderStatus_none] at hv
      injection hv with h2
      rw [← h2]
      decide
    | some s =>
      rw [hs, validateOrderStatus_some] at hv
      by_cases hc : ORDER_STATUS_CHOICES.contains s = true
      · rw [if_pos hc] at hv
        injection hv with h2
        rw [← h2]
        exact hc
      · rw [if_neg hc] at hv
        exact Except.noConfusion hv
  · intro hs o h
    have hv := orderCreate_ok_status db u inp newId now o h
    rw [hs, validateOrderStatus_none] at hv
    injection hv with h2
    exact h2.symm
  · intro s hs hc o h
    have hv := orderCreate_ok_status db u inp newId now o h
    rw [hs, validateOrderStatus_some] at hv
    rw [if_neg (by rw [hc]; exact Bool.false_ne_true)] at hv
    exact Except.noConfusion hv
  · intro hmem o h
    rcases orderUpdate_ok_status db o0 inp now o h with ⟨_, hst⟩ | ⟨_, hc⟩
    · rw [hst]
      exact hmem
    · exact hc
  · intro s hs hc o h
    rcases orderUpdate_ok_status db o0 inp now o h with ⟨hn, _⟩ | ⟨heq, hcc⟩
    · rw [hs] at hn
      exact Option.noConfusion hn
    · rw [hs] at heq
      injection heq with h2
      rw [← h2] at hcc
      rw [hc] at hcc
      exact Bool.noConfusion hcc

/-- A concrete listing, for witnesses. -/
def sampleListing : Listing :=
  { id := 1, seller := 5, title := "MacBook", ldescription := "", category := none,
    price := 1200, tokenAddress := none, quantity := 1, isActive := true,
    isSold := false, createdAt := 0, updatedAt := 0 }

/-- A concrete database with one listing, for witnesses. -/
def sampleDB : DB := { listings := [sampleListing], orders := [], escrows := [], events := [] }

/-- The concrete order that a create with no status produces, for
witnesses. -/
def sampleOrder : Order :=
  { id := 9, buyer := 3, listingId := 1, shippingAddress := "", phoneNumber := "",
    quantity := 1, status := "pending", escrowId := none, createdAt := 5, updatedAt := 5 }

/-- Witness for C8: on the concrete database, a create without status
yields pending, and a create or update with the status bogus is
rejected. -/
theorem order_status_invariant_witness :
    ORDER_STATUS_CHOICES.contains "bogus" = false ∧
    ORDER_STATUS_CHOICES.contains sampleOrder.status = true ∧
    sampleOrder.status = "pending" ∧
    orderCreate sampleDB 3 { listingId := some 1, status := some "bogus" } 9 5 ≠
      Except.ok sampleOrder ∧
    orderUpdate sampleDB sampleOrder { listingId := none, status := some "bogus" } 6 ≠
      Except.ok sampleOrder ∧
    ORDER_STATUS_CHOICES.contains
      (Order.status { sampleOrder with status := "paid", updatedAt := 6 }) = true :=
  ⟨by decide,
   (order_status_invariant sampleDB 3 { listingId := some 1, status := none }
      sampleOrder 9 5).1 sampleOrder (by rfl),
   (order_status_invariant sampleDB 3 { listingId := some 1, status := none }
      sampleOrder 9 5).2.1 rfl sampleOrder (by rfl),
   (order_status_invariant sampleDB 3 { listingId := some 1, status := some "bogus" }
      sampleOrder 9 5).2.2.1 "bogus" rfl (by decide) sampleOrder,
   (order_status_invariant sampleDB 3 { listingId := none, status := some "bogus" }
      sampleOrder 9 6).2.2.2.2 "bogus" rfl (by decide) sampleOrder,
   (order_status_invariant sampleDB 3 { listingId := none, status := some "paid" }
      sampleOrder 9 6).2.2.2.1 (by decide)
      { sampleOrder with status := "paid", updatedAt := 6 } (by rfl)⟩

end Auctra
